import Mathlib

/-!
Verification development for the AI Mouse Check movement-classification
engine and its attestation subsystem (`src/server/detection.js`, v1.4.0
analyzer, and the Express verification server).

Modelling conventions:
- JS byte strings (`Buffer.from(string)` over ASCII data) are `List Nat`
  of byte values; all inputs the server handles here are ASCII.
- JS numbers in the movement-analysis pipeline are modelled exactly over
  `ℚ` (and over `ℝ` where the source applies `Math.sqrt`, `Math.acos`,
  `Math.atan2` or `Math.log2`); IEEE-754 rounding is out of scope, but
  the source's division-by-zero behaviour (`x / 0` being `Infinity`/`NaN`
  in JS) is encoded explicitly at the two unguarded sites where it can
  occur (`pointsPerSecond`, `velocityPeaksPerSecond`).
- `crypto.createHmac('sha256', k)` / `crypto.createHash('sha256')` are
  modelled by a full executable SHA-256/HMAC implementation, checked
  below against the standard FIPS 180-4 and RFC 4231 test vectors.
- `crypto.timingSafeEqual` follows Node's documented semantics: it
  throws a `RangeError` when the buffers differ in byte length, which is
  modelled as `Except.error`.
- `JSON.stringify` is modelled for the data the server actually signs:
  integer-valued sample points and escape-free ASCII record ids.
-/

set_option maxRecDepth 100000

namespace MouseCheck

/-- Modulus of 32-bit machine words. -/
def w32 : Nat := 4294967296

/-- Right rotation of a 32-bit word. -/
def rotr32 (n x : Nat) : Nat := ((x >>> n) ||| (x <<< (32 - n))) % w32

/-- SHA-256 Ch function. -/
def shaCh (e f g : Nat) : Nat := (e &&& f) ^^^ ((e ^^^ 4294967295) &&& g)

/-- SHA-256 Maj function. -/
def shaMaj (a b c : Nat) : Nat := (a &&& b) ^^^ (a &&& c) ^^^ (b &&& c)

/-- SHA-256 Σ₀. -/
def bigSigma0 (x : Nat) : Nat := rotr32 2 x ^^^ rotr32 13 x ^^^ rotr32 22 x

/-- SHA-256 Σ₁. -/
def bigSigma1 (x : Nat) : Nat := rotr32 6 x ^^^ rotr32 11 x ^^^ rotr32 25 x

/-- SHA-256 σ₀. -/
def smallSigma0 (x : Nat) : Nat := rotr32 7 x ^^^ rotr32 18 x ^^^ (x >>> 3)

/-- SHA-256 σ₁. -/
def smallSigma1 (x : Nat) : Nat := rotr32 17 x ^^^ rotr32 19 x ^^^ (x >>> 10)

/-- SHA-256 round constants (FIPS 180-4 section 4.2.2, in decimal). -/
def shaK : List Nat :=
  [1116352408, 1899447441, 3049323471, 3921009573, 961987163, 1508970993, 2453635748, 2870763221,
   3624381080, 310598401, 607225278, 1426881987, 1925078388, 2162078206, 2614888103, 3248222580,
   3835390401, 4022224774, 264347078, 604807628, 770255983, 1249150122, 1555081692, 1996064986,
   2554220882, 2821834349, 2952996808, 3210313671, 3336571891, 3584528711, 113926993, 338241895,
   666307205, 773529912, 1294757372, 1396182291, 1695183700, 1986661051, 2177026350, 2456956037,
   2730485921, 2820302411, 3259730800, 3345764771, 3516065817, 3600352804, 4094571909, 275423344,
   430227734, 506948616, 659060556, 883997877, 958139571, 1322822218, 1537002063, 1747873779,
   1955562222, 2024104815, 2227730452, 2361852424, 2428436474, 2756734187, 3204031479, 3329325298]

/-- Working state of the SHA-256 compression function. -/
structure Sha256State where
  a : Nat
  b : Nat
  c : Nat
  d : Nat
  e : Nat
  f : Nat
  g : Nat
  h : Nat
deriving DecidableEq

/-- SHA-256 initial hash value (FIPS 180-4 section 5.3.3, in decimal). -/
def sha256Init : Sha256State :=
  ⟨1779033703, 3144134277, 1013904242, 2773480762, 1359893119, 2600822924, 528734635, 1541459225⟩

/-- One SHA-256 round, consuming a `(schedule word, round constant)` pair. -/
def shaRound (st : Sha256State) (wk : Nat × Nat) : Sha256State :=
  let t1 := (st.h + bigSigma1 st.e + shaCh st.e st.f st.g + wk.2 + wk.1) % w32
  let t2 := (bigSigma0 st.a + shaMaj st.a st.b st.c) % w32
  ⟨(t1 + t2) % w32, st.a, st.b, st.c, (st.d + t1) % w32, st.e, st.f, st.g⟩

/-- Extends the message schedule: the argument list is the sliding window of
the previous 16 schedule words, oldest first, and `n` counts the words still
to be produced. -/
def scheduleRest : List Nat → Nat → List Nat
  | _, 0 => []
  | w, n + 1 =>
    let wt := (smallSigma1 (w.getD 14 0) + w.getD 9 0 + smallSigma0 (w.getD 1 0) + w.getD 0 0) % w32
    wt :: scheduleRest (w.tail ++ [wt]) n

/-- Full 64-word message schedule of one block. -/
def messageSchedule (block : List Nat) : List Nat := block ++ scheduleRest block 48

/-- Big-endian 32-bit words from a byte list. -/
def bytesToWords : List Nat → List Nat
  | b0 :: b1 :: b2 :: b3 :: rest => (((b0 * 256 + b1) * 256 + b2) * 256 + b3) :: bytesToWords rest
  | _ => []

/-- SHA-256 compression of one 64-byte block, with the Davies-Meyer
feed-forward addition. -/
def compressBlock (st : Sha256State) (block : List Nat) : Sha256State :=
  let r := ((messageSchedule (bytesToWords block)).zip shaK).foldl shaRound st
  ⟨(st.a + r.a) % w32, (st.b + r.b) % w32, (st.c + r.c) % w32, (st.d + r.d) % w32,
   (st.e + r.e) % w32, (st.f + r.f) % w32, (st.g + r.g) % w32, (st.h + r.h) % w32⟩

/-- Folds the compression function over the padded message, 64 bytes at
a time. The first argument is recursion fuel making the definition
structurally recursive (so that it evaluates inside the kernel); every
non-empty step consumes at least one byte, so fuel equal to the byte
length never runs out. -/
def processBlocksFuel : Nat → Sha256State → List Nat → Sha256State
  | 0, st, _ => st
  | fuel + 1, st, l =>
    if l = [] then st else processBlocksFuel fuel (compressBlock st (l.take 64)) (l.drop 64)

/-- Block iteration of SHA-256 over a padded message. -/
def processBlocks (st : Sha256State) (l : List Nat) : Sha256State :=
  processBlocksFuel l.length st l

/-- Big-endian bytes of a 64-bit length field. -/
def word64Bytes (n : Nat) : List Nat := [56, 48, 40, 32, 24, 16, 8, 0].map (fun s => (n >>> s) % 256)

/-- FIPS 180-4 padding: a 0x80 byte, zeros to 56 mod 64, then the bit length. -/
def padMessage (m : List Nat) : List Nat :=
  m ++ 128 :: (List.replicate ((120 - (m.length + 1) % 64) % 64) 0 ++ word64Bytes (m.length * 8))

/-- Big-endian bytes of one 32-bit word. -/
def wordBytes (n : Nat) : List Nat := [(n >>> 24) % 256, (n >>> 16) % 256, (n >>> 8) % 256, n % 256]

/-- Digest bytes of a final SHA-256 state. -/
def digestBytes (st : Sha256State) : List Nat :=
  wordBytes st.a ++ wordBytes st.b ++ wordBytes st.c ++ wordBytes st.d ++
  wordBytes st.e ++ wordBytes st.f ++ wordBytes st.g ++ wordBytes st.h

/-- SHA-256 of a byte list, as 32 digest bytes. -/
def sha256 (m : List Nat) : List Nat := digestBytes (processBlocks sha256Init (padMessage m))

/-- HMAC-SHA-256 (RFC 2104), the model of Node's
`crypto.createHmac('sha256', key).update(msg).digest()`. -/
def hmacSha256 (key msg : List Nat) : List Nat :=
  let k0 := if 64 < key.length then sha256 key else key
  let kp := k0 ++ List.replicate (64 - k0.length) 0
  sha256 ((kp.map (fun b => b ^^^ 92)) ++ sha256 ((kp.map (fun b => b ^^^ 54)) ++ msg))

/-- ASCII code of one lowercase hex digit. -/
def hexDigitChar (n : Nat) : Nat := if n < 10 then 48 + n else 87 + n

/-- Lowercase hex encoding of a byte list (the model of `.digest('hex')`),
as ASCII codes. -/
def toHex (l : List Nat) : List Nat :=
  l.flatMap (fun b => [hexDigitChar (b / 16), hexDigitChar (b % 16)])

/-- Hex-encoded HMAC-SHA-256, the exact value of
`crypto.createHmac('sha256', key).update(msg).digest('hex')`. -/
def hmacSha256Hex (key msg : List Nat) : List Nat := toHex (hmacSha256 key msg)

/-- Node error raised by `crypto.timingSafeEqual` on buffers of unequal
byte length (a `RangeError` in Node). -/
inductive NodeError where
  | rangeError
deriving DecidableEq

/-- Model of `crypto.timingSafeEqual(Buffer.from(a), Buffer.from(b))`:
Node throws a `RangeError` when the byte lengths differ, and otherwise
returns content equality (its constant-time evaluation is a timing
property with no functional content). -/
def timingSafeEqual (a b : List Nat) : Except NodeError Bool :=
  if a.length = b.length then .ok (a == b) else .error .rangeError

/-- Model of `verifySignature(secretKey, signature, payload)`
(detection.js:686-696): recompute the hex HMAC of the payload and hand
both strings to `crypto.timingSafeEqual`. -/
def verifySignature (secretKey sigStr payload : List Nat) : Except NodeError Bool :=
  timingSafeEqual sigStr (hmacSha256Hex secretKey payload)

/-- One movement point as signed by the server; the attestation layer is
modelled for integer-valued samples, on which `JSON.stringify` renders
each coordinate as its plain decimal numeral. -/
structure MovePoint where
  x : Int
  y : Int
  t : Int
deriving DecidableEq

/-- ASCII decimal digits, with structural recursion fuel (a number below
`10^(fuel+1)` is rendered fully; the wrapper below always supplies
enough). -/
def natDigitsFuel : Nat → Nat → List Nat
  | 0, n => [48 + n]
  | fuel + 1, n => if n < 10 then [48 + n] else natDigitsFuel fuel (n / 10) ++ [48 + n % 10]

/-- ASCII decimal digits of a natural number. -/
def natAsciiDigits (n : Nat) : List Nat := natDigitsFuel n n

/-- ASCII decimal digits of an integer, with a leading minus sign when
negative. -/
def intAsciiDigits (i : Int) : List Nat :=
  if i < 0 then 45 :: natAsciiDigits (-i).toNat else natAsciiDigits i.toNat

/-- Bytes of `JSON.stringify` of one point object `{x, y, t}` (fields in
insertion order, as V8 produces them). -/
def jsonPoint (p : MovePoint) : List Nat :=
  [123, 34, 120, 34, 58] ++ intAsciiDigits p.x ++ ([44, 34, 121, 34, 58] ++ intAsciiDigits p.y ++
    ([44, 34, 116, 34, 58] ++ intAsciiDigits p.t ++ [125]))

/-- Bytes of `JSON.stringify` of the points array. -/
def jsonPoints (ps : List MovePoint) : List Nat :=
  91 :: (List.intercalate [44] (ps.map jsonPoint) ++ [93])

/-- Model of `hashMovement(points)` (detection.js:703-709): hex SHA-256
of the JSON serialization of the points. -/
def hashMovement (points : List MovePoint) : List Nat := toHex (sha256 (jsonPoints points))

/-- Data record passed to `generateSignature`; the record id is
escape-free ASCII, which `JSON.stringify` renders verbatim between
quotes. -/
structure SignData where
  points : List MovePoint
  recordId : List Nat
  checksPassed : Nat
deriving DecidableEq

/-- Bytes of the signed payload
`JSON.stringify({movementHash, recordId, timestamp, checksPassed})`
(detection.js:660-665). The bracketed byte constants spell the ASCII of
the JSON punctuation and field names. -/
def signPayload (data : SignData) (timestamp : Int) : List Nat :=
  [123, 34, 109, 111, 118, 101, 109, 101, 110, 116, 72, 97, 115, 104, 34, 58, 34] ++
    (hashMovement data.points ++
    ([34, 44, 34, 114, 101, 99, 111, 114, 100, 73, 100, 34, 58, 34] ++
    (data.recordId ++
    ([34, 44, 34, 116, 105, 109, 101, 115, 116, 97, 109, 112, 34, 58] ++
    (intAsciiDigits timestamp ++
    ([44, 34, 99, 104, 101, 99, 107, 115, 80, 97, 115, 115, 101, 100, 34, 58] ++
    (natAsciiDigits data.checksPassed ++ [125])))))))

/-- Return value of `generateSignature`. -/
structure SignatureResult where
  signature : List Nat
  timestamp : Int
  payload : List Nat
deriving DecidableEq

/-- Model of `generateSignature(secretKey, data)` (detection.js:658-677).
`Date.now()` is an ambient effect and enters as the explicit `now`
argument. -/
def generateSignature (secretKey : List Nat) (now : Int) (data : SignData) : SignatureResult :=
  let payload := signPayload data now
  ⟨hmacSha256Hex secretKey payload, now, payload⟩

/-! ## Movement analysis (`analyzeMovement`, detection.js:47-650, v1.4.0)

Samples carry exact rational coordinates. Every check or metric the
source computes with rational arithmetic alone is a computable `ℚ`
definition; wherever the source applies `Math.sqrt`, `Math.acos`,
`Math.atan2` or `Math.log2`, the definition works in `ℝ` and is
noncomputable — no claim below needs to evaluate those numerically. -/

/-- One raw movement sample `{x, y, t}`. -/
structure Sample where
  x : ℚ
  y : ℚ
  t : ℚ
deriving DecidableEq

instance : Inhabited Sample := ⟨⟨0, 0, 0⟩⟩

/-- Analyzer options object; absent fields are `none`. -/
structure AnalyzeOptions where
  targetHitsRequired : Option ℚ := none
  targetHits : Option ℚ := none
deriving DecidableEq

/-- JS `v || d` for a possibly-absent numeric option: both `undefined`
and `0` are falsy and fall back to the default. -/
def jsOrDefault (v : Option ℚ) (d : ℚ) : ℚ :=
  match v with
  | none => d
  | some q => if q = 0 then d else q

/-- Effective `targetHitsRequired` (detection.js:48). -/
def targetHitsRequiredOf (o : AnalyzeOptions) : ℚ := jsOrDefault o.targetHitsRequired 5

/-- Effective `targetHits` (detection.js:49). -/
def targetHitsOf (o : AnalyzeOptions) : ℚ := jsOrDefault o.targetHits 0

/-- The seventh check, `targetHits >= targetHitsRequired`
(detection.js:597). -/
def targetCheckOf (o : AnalyzeOptions) : Bool := decide (targetHitsRequiredOf o ≤ targetHitsOf o)

/-- The six primary check booleans. -/
structure Checks where
  speed : Bool
  curves : Bool
  jitter : Bool
  timing : Bool
  continuous : Bool
  notRobotic : Bool
deriving DecidableEq

/-- The `reason` string of a failed analysis. -/
inductive FailReason where
  | insufficientData
deriving DecidableEq

/-- Analysis result object. Fields absent from the short-circuit return
(`duration`, `pointCount`, `totalChecks`, and conversely `reason` for the
full path) are `Option`s, mirroring absent JS object fields. The
`metrics` object is omitted: it is pure observability and never feeds a
verdict. -/
structure AnalysisResult where
  verified : Bool
  reason : Option FailReason
  checks : Checks
  checksPassed : Nat
  totalChecks : Option Nat
  aiDetected : Bool
  duration : Option ℚ
  pointCount : Option Nat
deriving DecidableEq

/-- Consecutive sample pairs `(points[i-1], points[i])`. -/
def stepPairs (pts : List Sample) : List (Sample × Sample) := pts.zip pts.tail

/-- Consecutive sample triples `(points[i-2], points[i-1], points[i])`. -/
def tripleList (pts : List Sample) : List (Sample × Sample × Sample) :=
  pts.zip ((pts.drop 1).zip (pts.drop 2))

/-- `duration = points[points.length-1].t - points[0].t`
(detection.js:129). -/
def durationOf (pts : List Sample) : ℚ := (pts.getLastD default).t - (pts.headD default).t

/-- Inter-sample time gaps (detection.js:142-145). -/
def timeGaps (pts : List Sample) : List ℚ := (stepPairs pts).map (fun p => p.2.t - p.1.t)

/-- Count of gaps above 50ms (detection.js:134). -/
def pauseCountOf (pts : List Sample) : Nat := (timeGaps pts).countP (fun g => decide (50 < g))

/-- Count of gaps above 150ms (detection.js:135). -/
def longPauseCountOf (pts : List Sample) : Nat := (timeGaps pts).countP (fun g => decide (150 < g))

/-- Timing check (detection.js:127-138): span above 300ms, pause ratio
`pauseCount / points.length` below 0.3, and `longPauseCount` below
`points.length * 0.1`. -/
def timingCheckOf (pts : List Sample) : Bool :=
  decide (300 < durationOf pts) &&
  (decide ((pauseCountOf pts : ℚ) / (pts.length : ℚ) < 3 / 10) &&
   decide ((longPauseCountOf pts : ℚ) < (pts.length : ℚ) * (1 / 10)))

/-- Count of gaps under 30ms (detection.js:146). -/
def smallGapCountOf (pts : List Sample) : Nat := (timeGaps pts).countP (fun g => decide (g < 30))

/-- `continuousRatio = smallGaps / timeGaps.length` (detection.js:147). -/
def continuousRatioOf (pts : List Sample) : ℚ :=
  (smallGapCountOf pts : ℚ) / ((timeGaps pts).length : ℚ)

/-- The comparison `points.length / (duration / 1000) > 15`
(detection.js:148-149), encoded with the IEEE behaviour of the unguarded
division: a zero duration makes the quotient `Infinity` (the analyzer
only reaches this with `points.length ≥ 15 > 0`), which exceeds 15, and
a negative duration makes it negative. -/
def pointsPerSecondGtFifteen (pts : List Sample) : Bool :=
  if 0 < durationOf pts then decide (15 * durationOf pts < 1000 * (pts.length : ℚ))
  else decide (durationOf pts = 0)

/-- Continuous-flow check (detection.js:140-149). -/
def continuousCheckOf (pts : List Sample) : Bool :=
  decide (2 / 5 < continuousRatioOf pts) && pointsPerSecondGtFifteen pts

/-- One step of the jitter reversal scan (detection.js:114-123): carries
`(lastDx, lastDy, reversals)`. -/
def reversalStep (st : ℚ × ℚ × Nat) (p : Sample × Sample) : ℚ × ℚ × Nat :=
  let dx := p.2.x - p.1.x
  let dy := p.2.y - p.1.y
  let r1 := if (0 < st.1 ∧ dx < 0) ∨ (st.1 < 0 ∧ 0 < dx) then 1 else 0
  let r2 := if (0 < st.2.1 ∧ dy < 0) ∨ (st.2.1 < 0 ∧ 0 < dy) then 1 else 0
  (dx, dy, st.2.2 + r1 + r2)

/-- Total sign reversals of per-step displacement (detection.js:114-123). -/
def reversalsOf (pts : List Sample) : Nat :=
  ((stepPairs pts).foldl reversalStep (0, 0, 0)).2.2

/-- `reversalRatio = reversals / points.length` (detection.js:124). -/
def reversalRatioOf (pts : List Sample) : ℚ := (reversalsOf pts : ℚ) / (pts.length : ℚ)

/-- Jitter check `reversalRatio < 0.6` (detection.js:125). -/
def jitterCheckOf (pts : List Sample) : Bool := decide (reversalRatioOf pts < 3 / 5)

/-- Squared euclidean distance between two samples. -/
def dist2 (p q : Sample) : ℚ := (q.x - p.x) ^ 2 + (q.y - p.y) ^ 2

open scoped Classical

/-- Speed series `dist / dt` over steps with positive elapsed time and
positive distance (detection.js:72-79). -/
noncomputable def speedsOf (pts : List Sample) : List ℝ :=
  (stepPairs pts).filterMap (fun p =>
    if 0 < p.2.t - p.1.t ∧ (0 : ℝ) < Real.sqrt ((dist2 p.1 p.2 : ℚ) : ℝ) then
      some (Real.sqrt ((dist2 p.1 p.2 : ℚ) : ℝ) / ((p.2.t - p.1.t : ℚ) : ℝ))
    else none)

/-- Speed-variation check (detection.js:81-88): with more than 10 speed
samples, pass when the first-third and last-third means differ by more
than 0.05, or the maximum exceeds 1.5 times the minimum. -/
noncomputable def speedCheckOf (pts : List Sample) : Bool :=
  let speeds := speedsOf pts
  if 10 < speeds.length then
    let thirds := speeds.length / 3
    let avgFirst := (speeds.take thirds).sum / (thirds : ℝ)
    let avgLast := (speeds.drop (speeds.length - thirds)).sum / (thirds : ℝ)
    decide ((1 / 20 : ℝ) < |avgFirst - avgLast|) ||
      decide ((speeds.min?.getD 0) * (3 / 2) < speeds.max?.getD 0)
  else false

/-- Clamped angle between the two displacement vectors of each triple
whose vectors are both longer than 0.5px (detection.js:94-108). -/
noncomputable def angleTriples (pts : List Sample) : List ℝ :=
  (tripleList pts).filterMap (fun tr =>
    let v1x := tr.2.1.x - tr.1.x
    let v1y := tr.2.1.y - tr.1.y
    let v2x := tr.2.2.x - tr.2.1.x
    let v2y := tr.2.2.y - tr.2.1.y
    let mag1 := Real.sqrt ((v1x ^ 2 + v1y ^ 2 : ℚ) : ℝ)
    let mag2 := Real.sqrt ((v2x ^ 2 + v2y ^ 2 : ℚ) : ℝ)
    if (1 / 2 : ℝ) < mag1 ∧ (1 / 2 : ℝ) < mag2 then
      some (Real.arccos (max (-1) (min 1 (((v1x * v2x + v1y * v2y : ℚ) : ℝ) / (mag1 * mag2)))))
    else none)

/-- `angleCount` (detection.js:93,105). -/
noncomputable def angleCountOf (pts : List Sample) : Nat := (angleTriples pts).length

/-- `smoothCount`: angles below 0.3 rad (detection.js:92,106). -/
noncomputable def smoothCountOf (pts : List Sample) : Nat :=
  (angleTriples pts).countP (fun a => decide (a < 3 / 10))

/-- `smoothRatio = smoothCount / max(1, angleCount)` (detection.js:109). -/
noncomputable def smoothRatioOf (pts : List Sample) : ℝ :=
  (smoothCountOf pts : ℝ) / ((max 1 (angleCountOf pts) : ℕ) : ℝ)

/-- Curvature check `0.3 < smoothRatio < 0.95` (detection.js:110). -/
noncomputable def curvesCheckOf (pts : List Sample) : Bool :=
  decide ((3 / 10 : ℝ) < smoothRatioOf pts) && decide (smoothRatioOf pts < 19 / 20)

/-- Window start offsets of the straightness scan: multiples of 10 below
`points.length - 20` (detection.js:157). -/
def windowStarts (pts : List Sample) : List Nat :=
  (List.range pts.length).filter (fun s => decide (s % 10 = 0 ∧ s < pts.length - 20))

/-- Per-window `(avgDeviation, lineLen)` for windows whose endpoint
distance is at least 10px (detection.js:157-178). -/
noncomputable def segmentData (pts : List Sample) : List (ℝ × ℝ) :=
  (windowStarts pts).filterMap (fun start =>
    let seg := (pts.drop start).take 20
    let p1 := seg.headD default
    let p2 := seg.getLastD default
    let lineLen := Real.sqrt ((dist2 p1 p2 : ℚ) : ℝ)
    if lineLen < 10 then none
    else
      let devs := ((seg.drop 1).take (seg.length - 2)).map (fun p =>
        ((|(p2.y - p1.y) * p.x - (p2.x - p1.x) * p.y + p2.x * p1.y - p2.y * p1.x| : ℚ) : ℝ) / lineLen)
      some (devs.sum / ((seg.length : ℝ) - 2), lineLen))

/-- `totalSegments` (detection.js:174). -/
noncomputable def totalSegmentsOf (pts : List Sample) : Nat := (segmentData pts).length

/-- `tooStraightSegments`: deviation ratio below 0.005 and absolute mean
deviation below 2px (detection.js:175-177). -/
noncomputable def tooStraightSegmentsOf (pts : List Sample) : Nat :=
  (segmentData pts).countP (fun d => decide (d.1 / d.2 < 1 / 200 ∧ d.1 < 2))

/-- `straightRatio` (detection.js:180). -/
noncomputable def straightRatioOf (pts : List Sample) : ℝ :=
  if 0 < totalSegmentsOf pts then (tooStraightSegmentsOf pts : ℝ) / (totalSegmentsOf pts : ℝ) else 0

/-- One velocity sample (detection.js:184-194). -/
structure Vel where
  vx : ℚ
  vy : ℚ
  t : ℚ
deriving DecidableEq

/-- Velocity series over steps with positive elapsed time
(detection.js:184-194). -/
def velocitiesOf (pts : List Sample) : List Vel :=
  (stepPairs pts).filterMap (fun p =>
    let dt := p.2.t - p.1.t
    if 0 < dt then some ⟨(p.2.x - p.1.x) / dt, (p.2.y - p.1.y) / dt, p.2.t⟩ else none)

/-- One acceleration sample (detection.js:196-206). -/
structure Accel where
  ax : ℚ
  ay : ℚ
  t : ℚ
deriving DecidableEq

/-- Acceleration series (detection.js:196-206). -/
def accelerationsOf (pts : List Sample) : List Accel :=
  ((velocitiesOf pts).zip (velocitiesOf pts).tail).filterMap (fun p =>
    let dt := p.2.t - p.1.t
    if 0 < dt then some ⟨(p.2.vx - p.1.vx) / dt, (p.2.vy - p.1.vy) / dt, p.2.t⟩ else none)

/-- Scalar jerk series (detection.js:208-216). -/
noncomputable def jerksOf (pts : List Sample) : List ℝ :=
  ((accelerationsOf pts).zip (accelerationsOf pts).tail).filterMap (fun p =>
    let dt := p.2.t - p.1.t
    if 0 < dt then
      some (Real.sqrt (((((p.2.ax - p.1.ax) / dt) ^ 2 + ((p.2.ay - p.1.ay) / dt) ^ 2 : ℚ)) : ℝ))
    else none)

/-- Mean of the jerk series (detection.js:222). -/
noncomputable def jerkMeanOf (pts : List Sample) : ℝ :=
  (jerksOf pts).sum / ((jerksOf pts).length : ℝ)

/-- Jerk variance, computed only with more than 10 jerk samples
(detection.js:219-223). -/
noncomputable def jerkVarianceOf (pts : List Sample) : ℝ :=
  if 10 < (jerksOf pts).length then
    ((jerksOf pts).map (fun j => (j - jerkMeanOf pts) ^ 2)).sum / ((jerksOf pts).length : ℝ)
  else 0

/-- Jerk spikes beyond two standard deviations (detection.js:220-227). -/
noncomputable def jerkSpikesOf (pts : List Sample) : Nat :=
  if 10 < (jerksOf pts).length then
    (jerksOf pts).countP (fun j => decide (2 * Real.sqrt (jerkVarianceOf pts) < |j - jerkMeanOf pts|))
  else 0

/-- `jerkSpikeRatio` (detection.js:228). -/
noncomputable def jerkSpikeRatioOf (pts : List Sample) : ℝ :=
  if 0 < (jerksOf pts).length then (jerkSpikesOf pts : ℝ) / ((jerksOf pts).length : ℝ) else 0

/-- `Math.sign` on an exact rational. -/
def qsign (q : ℚ) : Int := if 0 < q then 1 else if q < 0 then -1 else 0

/-- One step of the acceleration sign-change scan (detection.js:233-242):
carries `(lastSignX, lastSignY, changes)`. -/
def accelSignStep (st : Int × Int × Nat) (a : Accel) : Int × Int × Nat :=
  let sx := qsign a.ax
  let sy := qsign a.ay
  let c1 := if st.1 ≠ 0 ∧ sx ≠ 0 ∧ sx ≠ st.1 then 1 else 0
  let c2 := if st.2.1 ≠ 0 ∧ sy ≠ 0 ∧ sy ≠ st.2.1 then 1 else 0
  (if sx ≠ 0 then sx else st.1, if sy ≠ 0 then sy else st.2.1, st.2.2 + c1 + c2)

/-- Total acceleration sign changes (detection.js:233-242). -/
def accelSignChangesOf (pts : List Sample) : Nat :=
  ((accelerationsOf pts).foldl accelSignStep (0, 0, 0)).2.2

/-- `accelSignChangeRate` (detection.js:243). -/
def accelSignChangeRateOf (pts : List Sample) : ℚ :=
  if 0 < (accelerationsOf pts).length then
    (accelSignChangesOf pts : ℚ) / ((accelerationsOf pts).length : ℚ)
  else 0

/-- Mean inter-sample gap (detection.js:250). -/
def timingMeanOf (pts : List Sample) : ℚ := (timeGaps pts).sum / ((timeGaps pts).length : ℚ)

/-- Timing variance, computed only with more than 10 gaps
(detection.js:248-252). -/
def timingVarianceOf (pts : List Sample) : ℚ :=
  if 10 < (timeGaps pts).length then
    ((timeGaps pts).map (fun g => (g - timingMeanOf pts) ^ 2)).sum / ((timeGaps pts).length : ℚ)
  else 0

/-- Coefficient of variation of the gaps (detection.js:253), zero when
the variance is not positive. The ternary there guards the variance
only; the mean denominator is unguarded, so with positive variance over
a zero mean gap JS divides by zero and yields `Infinity`. This `ℝ`
value equals the JS one in every other case; `isTimingTooRegularOf`
encodes the `Infinity` case explicitly and does not consult this value
there. -/
noncomputable def timingCVOf (pts : List Sample) : ℝ :=
  if 0 < timingVarianceOf pts then
    Real.sqrt ((timingVarianceOf pts : ℚ) : ℝ) / ((timingMeanOf pts : ℚ) : ℝ)
  else 0

/-- `isTimingTooRegular = timingCV < 0.12` (detection.js:591), encoded
with the IEEE behaviour of the unguarded mean denominator of
detection.js:253: with positive variance and a zero mean gap the
quotient is `Infinity`, which is not below 0.12, so the path is not
classified too regular there. -/
noncomputable def isTimingTooRegularOf (pts : List Sample) : Bool :=
  if 0 < timingVarianceOf pts ∧ timingMeanOf pts = 0 then false
  else decide (timingCVOf pts < 12 / 100)

/-- JS `Math.atan2(y, x)`, the argument of the complex number `x + iy`
(both functions return a value in `(-π, π]` and `0` at the origin). -/
noncomputable def jsAtan2 (y x : ℝ) : ℝ := Complex.arg ⟨x, y⟩

/-- Signed turning angle `atan2(cross, dot)` of each consecutive
displacement pair (detection.js:258-268). -/
noncomputable def curvaturesOf (pts : List Sample) : List ℝ :=
  (tripleList pts).map (fun tr =>
    let v1x := tr.2.1.x - tr.1.x
    let v1y := tr.2.1.y - tr.1.y
    let v2x := tr.2.2.x - tr.2.1.x
    let v2y := tr.2.2.y - tr.2.1.y
    jsAtan2 ((v1x * v2y - v1y * v2x : ℚ) : ℝ) ((v1x * v2x + v1y * v2y : ℚ) : ℝ))

/-- Count of curvature jumps above 0.3 rad (detection.js:271-275). -/
noncomputable def suddenCurvatureChangesOf (pts : List Sample) : Nat :=
  ((curvaturesOf pts).zip (curvaturesOf pts).tail).countP (fun p => decide ((3 : ℝ) / 10 < |p.2 - p.1|))

/-- `curvatureChangeRate` (detection.js:276). -/
noncomputable def curvatureChangeRateOf (pts : List Sample) : ℝ :=
  if 0 < (curvaturesOf pts).length then
    (suddenCurvatureChangesOf pts : ℝ) / ((curvaturesOf pts).length : ℝ)
  else 0

/-- Speed magnitudes of the velocity series (detection.js:281). -/
noncomputable def speedMagnitudesOf (pts : List Sample) : List ℝ :=
  (velocitiesOf pts).map (fun v => Real.sqrt ((v.vx ^ 2 + v.vy ^ 2 : ℚ) : ℝ))

/-- Smoothed local-maximum count of the speed profile
(detection.js:282-291). -/
noncomputable def velocityPeaksOf (pts : List Sample) : Nat :=
  let m := speedMagnitudesOf pts
  ((List.range m.length).filter (fun i => decide (2 ≤ i ∧ i + 2 < m.length))).countP (fun i =>
    let prev := (m.getD (i - 2) 0 + m.getD (i - 1) 0) / 2
    let curr := m.getD i 0
    let next := (m.getD (i + 1) 0 + m.getD (i + 2) 0) / 2
    decide (prev * (23 / 20) < curr ∧ next * (23 / 20) < curr ∧ (1 / 2 : ℝ) < curr))

/-- The bezier signal `velocityPeaksPerSecond < 2.0` (detection.js:292,
569), encoded with the IEEE behaviour of the unguarded division
`velocityPeaks / (duration / 1000)`: a zero duration yields `NaN` or
`Infinity` (the comparison is then false) and a negative duration yields
a non-positive quotient (the comparison is then true). -/
noncomputable def velocityPeaksSignal (pts : List Sample) : Bool :=
  if 0 < durationOf pts then
    decide ((velocityPeaksOf pts : ℝ) / (((durationOf pts : ℚ) : ℝ) / 1000) < 2)
  else decide (durationOf pts < 0)

/-- Total polyline length (detection.js:296-301). -/
noncomputable def totalPathLengthOf (pts : List Sample) : ℝ :=
  ((stepPairs pts).map (fun p => Real.sqrt ((dist2 p.1 p.2 : ℚ) : ℝ))).sum

/-- Straight-line distance from first to last sample
(detection.js:302-305). -/
noncomputable def directDistanceOf (pts : List Sample) : ℝ :=
  Real.sqrt ((dist2 (pts.headD default) (pts.getLastD default) : ℚ) : ℝ)

/-- `pathEfficiency` (detection.js:306). -/
noncomputable def pathEfficiencyOf (pts : List Sample) : ℝ :=
  if 0 < directDistanceOf pts then directDistanceOf pts / totalPathLengthOf pts else 0

/-- Residuals against the 4-neighbour average (detection.js:310-318). -/
def residualsOf (pts : List Sample) : List (ℚ × ℚ) :=
  (pts.zip ((pts.drop 1).zip ((pts.drop 2).zip ((pts.drop 3).zip (pts.drop 4))))).map (fun q =>
    let a := q.1
    let b := q.2.1
    let c := q.2.2.1
    let d := q.2.2.2.1
    let e := q.2.2.2.2
    (c.x - (a.x + b.x + d.x + e.x) / 4, c.y - (a.y + b.y + d.y + e.y) / 4))

/-- Mean residual x. -/
def residualMeanXOf (pts : List Sample) : ℚ :=
  ((residualsOf pts).map Prod.fst).sum / ((residualsOf pts).length : ℚ)

/-- Mean residual y. -/
def residualMeanYOf (pts : List Sample) : ℚ :=
  ((residualsOf pts).map Prod.snd).sum / ((residualsOf pts).length : ℚ)

/-- Lag-1 autocorrelation numerator over x and y residuals, computed
only with more than 10 residuals (detection.js:321-329). -/
def autocorrSumOf (pts : List Sample) : ℚ :=
  if 10 < (residualsOf pts).length then
    (((residualsOf pts).zip (residualsOf pts).tail).map (fun p =>
      (p.2.1 - residualMeanXOf pts) * (p.1.1 - residualMeanXOf pts) +
      (p.2.2 - residualMeanYOf pts) * (p.1.2 - residualMeanYOf pts))).sum
  else 0

/-- Residual variance sum (detection.js:330-332). -/
def varianceSumOf (pts : List Sample) : ℚ :=
  if 10 < (residualsOf pts).length then
    ((residualsOf pts).map (fun r =>
      (r.1 - residualMeanXOf pts) ^ 2 + (r.2 - residualMeanYOf pts) ^ 2)).sum
  else 0

/-- `noiseAutocorr` (detection.js:334). -/
def noiseAutocorrOf (pts : List Sample) : ℚ :=
  if 0 < varianceSumOf pts then autocorrSumOf pts / varianceSumOf pts else 0

/-- Absolute curvature changes, skipping the first curvature
(detection.js:338-341). -/
noncomputable def directionChangesOf (pts : List Sample) : List ℝ :=
  ((curvaturesOf pts).drop 1).map (fun c => |c|)

/-- `directionChanges.length || 1` (detection.js:346). -/
noncomputable def dirTotalOf (pts : List Sample) : Nat :=
  if (directionChangesOf pts).length = 0 then 1 else (directionChangesOf pts).length

/-- The three bucket probabilities of the direction-change histogram
(detection.js:343-347). -/
noncomputable def directionProbsOf (pts : List Sample) : List ℝ :=
  let dcs := directionChangesOf pts
  let total := (dirTotalOf pts : ℝ)
  [((dcs.countP (fun d => decide (d < 1 / 20))) : ℝ) / total,
   ((dcs.countP (fun d => decide (1 / 20 ≤ d ∧ d < 1 / 5))) : ℝ) / total,
   ((dcs.countP (fun d => decide (1 / 5 ≤ d))) : ℝ) / total]

/-- Three-bucket direction-change entropy (detection.js:347-349). -/
noncomputable def directionEntropyOf (pts : List Sample) : ℝ :=
  -(((directionProbsOf pts).filter (fun p => decide (0 < p))).map
      (fun p => p * Real.logb 2 p)).sum

/-- Velocity direction angles (detection.js:356-357). -/
noncomputable def velAnglesOf (pts : List Sample) : List ℝ :=
  (velocitiesOf pts).map (fun v => jsAtan2 ((v.vy : ℚ) : ℝ) ((v.vx : ℚ) : ℝ))

/-- Count of wrapped direction changes above 90 degrees
(detection.js:354-367). -/
noncomputable def velocityReversalsOf (pts : List Sample) : Nat :=
  ((velAnglesOf pts).zip (velAnglesOf pts).tail).countP (fun p =>
    let d := |p.2 - p.1|
    decide (Real.pi / 2 < if Real.pi < d then 2 * Real.pi - d else d))

/-- `reversalRate` (detection.js:368). -/
noncomputable def reversalRateOf (pts : List Sample) : ℝ :=
  if 0 < (velocitiesOf pts).length then
    (velocityReversalsOf pts : ℝ) / ((velocitiesOf pts).length : ℝ)
  else 0

/-- Lag-1 jerk autocorrelation, computed only with more than 20 jerk
samples (detection.js:385-396). -/
noncomputable def jerkAutocorrOf (pts : List Sample) : ℝ :=
  if 20 < (jerksOf pts).length then
    let m := jerkMeanOf pts
    let num := (((jerksOf pts).zip (jerksOf pts).tail).map (fun p => (p.2 - m) * (p.1 - m))).sum
    let den := ((jerksOf pts).map (fun j => (j - m) ^ 2)).sum
    if 0 < den then num / den else 0
  else 0

/-- Acceleration magnitudes (detection.js:405). -/
noncomputable def accelMagsOf (pts : List Sample) : List ℝ :=
  (accelerationsOf pts).map (fun a => Real.sqrt ((a.ax ^ 2 + a.ay ^ 2 : ℚ) : ℝ))

/-- Segment start offsets of the acceleration-linearity scan
(detection.js:403). -/
def accelStarts (pts : List Sample) : List Nat :=
  (List.range (accelerationsOf pts).length).filter (fun s =>
    decide (s % 10 = 0 ∧ s < (accelerationsOf pts).length - 15))

/-- Count of 15-sample acceleration segments whose magnitude fits a line
with R² above 0.85 (detection.js:403-428). -/
noncomputable def linearAccelSegmentsOf (pts : List Sample) : Nat :=
  (accelStarts pts).countP (fun start =>
    let seg := ((accelMagsOf pts).drop start).take 15
    let n : ℝ := (seg.length : ℝ)
    let sumX := n * (n - 1) / 2
    let sumX2 := n * (n - 1) * (2 * n - 1) / 6
    let sumY := seg.sum
    let sumXY := (seg.enum.map (fun p => (p.1 : ℝ) * p.2)).sum
    let slope := (n * sumXY - sumX * sumY) / (n * sumX2 - sumX * sumX)
    let intercept := (sumY - slope * sumX) / n
    let yMean := sumY / n
    let ssRes := (seg.enum.map (fun p => (p.2 - (intercept + slope * (p.1 : ℝ))) ^ 2)).sum
    let ssTot := (seg.map (fun y => (y - yMean) ^ 2)).sum
    decide ((17 / 20 : ℝ) < if 0 < ssTot then 1 - ssRes / ssTot else 0))

/-- `totalAccelSegments` (detection.js:426). -/
def totalAccelSegmentsOf (pts : List Sample) : Nat := (accelStarts pts).length

/-- `linearAccelRatio` (detection.js:429). -/
noncomputable def linearAccelRatioOf (pts : List Sample) : ℝ :=
  if 0 < totalAccelSegmentsOf pts then
    (linearAccelSegmentsOf pts : ℝ) / (totalAccelSegmentsOf pts : ℝ)
  else 0

/-- Movement boundaries: index 0, every index where speed crosses from
below 0.3 to above 0.5, and the series length (detection.js:437-443). -/
noncomputable def movementStartsOf (pts : List Sample) : List Nat :=
  let m := speedMagnitudesOf pts
  (0 :: (List.range m.length).filter (fun i =>
      decide (1 ≤ i) && (decide (m.getD (i - 1) 0 < 3 / 10) && decide ((1 / 2 : ℝ) < m.getD i 0)))) ++
    [m.length]

/-- Per-movement phase ratio `min(accel, decel) / max(accel, decel)` of
movements at least 10 samples long with an interior peak
(detection.js:445-461). -/
noncomputable def symmetryDataOf (pts : List Sample) : List ℚ :=
  ((movementStartsOf pts).zip (movementStartsOf pts).tail).filterMap (fun se =>
    if se.2 - se.1 < 10 then none
    else
      let seg := ((speedMagnitudesOf pts).drop se.1).take (se.2 - se.1)
      let peakIdx := seg.indexOf (seg.max?.getD 0)
      if 2 < peakIdx ∧ peakIdx < seg.length - 2 then
        some (((min peakIdx (seg.length - peakIdx) : ℕ) : ℚ) / ((max peakIdx (seg.length - peakIdx) : ℕ) : ℚ))
      else none)

/-- `totalMovements` (detection.js:458). -/
noncomputable def totalMovementsOf (pts : List Sample) : Nat := (symmetryDataOf pts).length

/-- `symmetricMovements`: phase ratio above 0.7 (detection.js:459). -/
noncomputable def symmetricMovementsOf (pts : List Sample) : Nat :=
  (symmetryDataOf pts).countP (fun r => decide ((7 / 10 : ℚ) < r))

/-- `symmetryRatio` (detection.js:462). -/
noncomputable def symmetryRatioOf (pts : List Sample) : ℝ :=
  if 0 < totalMovementsOf pts then (symmetricMovementsOf pts : ℝ) / (totalMovementsOf pts : ℝ) else 0

/-- `xyNoiseCorr` (detection.js:466-477). -/
noncomputable def xyNoiseCorrOf (pts : List Sample) : ℝ :=
  if 10 < (residualsOf pts).length then
    let covXY : ℚ := ((residualsOf pts).map (fun r =>
      (r.1 - residualMeanXOf pts) * (r.2 - residualMeanYOf pts))).sum
    let varX : ℚ := ((residualsOf pts).map (fun r => (r.1 - residualMeanXOf pts) ^ 2)).sum
    let varY : ℚ := ((residualsOf pts).map (fun r => (r.2 - residualMeanYOf pts) ^ 2)).sum
    if 0 < varX ∧ 0 < varY then |((covXY : ℚ) : ℝ) / Real.sqrt (((varX * varY : ℚ)) : ℝ)| else 0
  else 0

/-- Indices following a pause above 100ms, with at least `lim` samples
remaining after them (the loop bounds of detection.js:485 and 512). -/
def pauseStartIdx (pts : List Sample) (lim : Nat) : List Nat :=
  (List.range pts.length).filter (fun i =>
    decide (1 ≤ i ∧ i < pts.length - lim) &&
      decide ((100 : ℚ) < (pts.getD i default).t - (pts.getD (i - 1) default).t))

/-- Wrapped direction difference between the first and last segments of
the 8 points after each pause (detection.js:485-504). -/
noncomputable def perfectStartDataOf (pts : List Sample) : List ℝ :=
  (pauseStartIdx pts 10).filterMap (fun i =>
    let ip := (pts.drop i).take 8
    if ip.length < 8 then none
    else
      let dir1 := jsAtan2 (((ip.getD 2 default).y - (ip.getD 0 default).y : ℚ) : ℝ)
        (((ip.getD 2 default).x - (ip.getD 0 default).x : ℚ) : ℝ)
      let dir2 := jsAtan2 (((ip.getD 7 default).y - (ip.getD 5 default).y : ℚ) : ℝ)
        (((ip.getD 7 default).x - (ip.getD 5 default).x : ℚ) : ℝ)
      let d := |dir1 - dir2|
      some (if Real.pi < d then 2 * Real.pi - d else d))

/-- `totalStarts` (detection.js:499). -/
noncomputable def totalStartsOf (pts : List Sample) : Nat := (perfectStartDataOf pts).length

/-- `perfectStarts`: direction difference below 0.35 rad
(detection.js:501). -/
noncomputable def perfectStartsOf (pts : List Sample) : Nat :=
  (perfectStartDataOf pts).countP (fun d => decide (d < 7 / 20))

/-- `perfectStartRatio` (detection.js:505). -/
noncomputable def perfectStartRatioOf (pts : List Sample) : ℝ :=
  if 0 < totalStartsOf pts then (perfectStartsOf pts : ℝ) / (totalStartsOf pts : ℝ) else 0

/-- Speeds of the first up-to-6 steps from index `i`
(detection.js:516-524). -/
noncomputable def initSpeedsAt (pts : List Sample) (i : Nat) : List ℝ :=
  ((List.range 6).map (fun k => i + k)).filterMap (fun j =>
    if j < pts.length then
      let dt := (pts.getD j default).t - (pts.getD (j - 1) default).t
      if 0 < dt then
        some (Real.sqrt ((dist2 (pts.getD (j - 1) default) (pts.getD j default) : ℚ) : ℝ) / ((dt : ℚ) : ℝ))
      else none
    else none)

/-- Per-qualifying-start monotonicity flag of the initial speeds
(detection.js:512-539). -/
noncomputable def smoothStartDataOf (pts : List Sample) : List Bool :=
  (pauseStartIdx pts 8).filterMap (fun i =>
    let s := initSpeedsAt pts i
    if s.length < 4 then none
    else some ((s.zip s.tail).all (fun p => !decide (p.2 < p.1 * (9 / 10)))))

/-- `totalAccelStarts` (detection.js:527). -/
noncomputable def totalAccelStartsOf (pts : List Sample) : Nat := (smoothStartDataOf pts).length

/-- `smoothAccelStarts` (detection.js:536). -/
noncomputable def smoothAccelStartsOf (pts : List Sample) : Nat := (smoothStartDataOf pts).count true

/-- `smoothStartRatio` (detection.js:540). -/
noncomputable def smoothStartRatioOf (pts : List Sample) : ℝ :=
  if 0 < totalAccelStartsOf pts then
    (smoothAccelStartsOf pts : ℝ) / (totalAccelStartsOf pts : ℝ)
  else 0

/-- Indices of very slow periods: local 5-sample mean speed below 0.2
(detection.js:547-549). -/
noncomputable def stillIdxOf (pts : List Sample) : List Nat :=
  let m := speedMagnitudesOf pts
  ((List.range m.length).filter (fun i => decide (5 ≤ i ∧ i + 5 < m.length))).filter (fun i =>
    decide ((((m.drop (i - 2)).take 5).sum / 5) < 1 / 5))

/-- `stillPeriods` (detection.js:550). -/
noncomputable def stillPeriodsOf (pts : List Sample) : Nat := (stillIdxOf pts).length

/-- `fidgetCount`: micro-movement between 1px and 10px across each still
period (detection.js:551-556). -/
noncomputable def fidgetCountOf (pts : List Sample) : Nat :=
  (stillIdxOf pts).countP (fun i =>
    let md := Real.sqrt ((dist2 (pts.getD (i - 2) default) (pts.getD (i + 2) default) : ℚ) : ℝ)
    decide (1 < md ∧ md < 10))

/-- `fidgetRatio` (detection.js:559). -/
noncomputable def fidgetRatioOf (pts : List Sample) : ℝ :=
  if 0 < stillPeriodsOf pts then (fidgetCountOf pts : ℝ) / (stillPeriodsOf pts : ℝ) else 0

/-- The 18 anti-bezier signal booleans, in the order of
detection.js:564-587. -/
noncomputable def bezierSignalsOf (pts : List Sample) : List Bool :=
  [decide (jerkSpikeRatioOf pts < 35 / 1000),
   decide (accelSignChangeRateOf pts < 35 / 100),
   decide (curvatureChangeRateOf pts < 12 / 100),
   velocityPeaksSignal pts,
   decide ((3 / 4 : ℝ) < pathEfficiencyOf pts),
   decide (|noiseAutocorrOf pts| < 8 / 100),
   decide (directionEntropyOf pts < 7 / 5),
   decide (reversalRateOf pts < 2 / 100),
   decide (|jerkAutocorrOf pts| < 12 / 100),
   decide ((3 / 10 : ℝ) < linearAccelRatioOf pts),
   decide ((3 / 5 : ℝ) < symmetryRatioOf pts),
   decide (xyNoiseCorrOf pts < 1 / 10),
   decide ((9 / 10 : ℝ) < perfectStartRatioOf pts),
   decide ((3 / 5 : ℝ) < smoothStartRatioOf pts),
   decide (fidgetRatioOf pts < 1 / 10),
   decide ((15 / 100 : ℚ) < reversalRatioOf pts),
   decide (smoothRatioOf pts < 45 / 100),
   decide ((55 / 100 : ℝ) < curvatureChangeRateOf pts)]

/-- `bezierSignalCount` (detection.js:588). -/
noncomputable def bezierSignalCountOf (pts : List Sample) : Nat := (bezierSignalsOf pts).count true

/-- `isBezierLike = bezierSignalCount >= 3` (detection.js:589). -/
noncomputable def isBezierLikeOf (pts : List Sample) : Bool := decide (3 ≤ bezierSignalCountOf pts)

/-- `checks.notRobotic` (detection.js:593). -/
noncomputable def notRoboticCheckOf (pts : List Sample) : Bool :=
  decide (straightRatioOf pts < 1 / 2) && (!isBezierLikeOf pts && !isTimingTooRegularOf pts)

/-- The six check booleans of the full analysis path. -/
noncomputable def computeChecks (pts : List Sample) : Checks :=
  ⟨speedCheckOf pts, curvesCheckOf pts, jitterCheckOf pts, timingCheckOf pts,
   continuousCheckOf pts, notRoboticCheckOf pts⟩

/-- `checkValues` (detection.js:596). -/
def checkValuesOf (c : Checks) : List Bool :=
  [c.speed, c.curves, c.jitter, c.timing, c.continuous, c.notRobotic]

/-- `checksPassed` (detection.js:598). -/
def checksPassedOf (c : Checks) (targetCheck : Bool) : Nat :=
  (checkValuesOf c).count true + (if targetCheck then 1 else 0)

/-- `aiFailures` (detection.js:601). -/
def aiFailuresOf (c : Checks) : Nat := [!c.curves, !c.continuous, !c.notRobotic, !c.timing].count true

/-- `aiDetected = aiFailures >= 2` (detection.js:602). -/
def aiDetectedOf (c : Checks) : Bool := decide (2 ≤ aiFailuresOf c)

/-- `allPassed = checkValues.every(Boolean) && targetCheck`
(detection.js:604). -/
def allPassedOf (c : Checks) (targetCheck : Bool) : Bool := (checkValuesOf c).all id && targetCheck

/-- Decision aggregation of the full analysis path
(detection.js:596-649). -/
def aggregateResult (c : Checks) (targetCheck : Bool) (duration : ℚ) (pointCount : Nat) :
    AnalysisResult :=
  { verified := allPassedOf c targetCheck
    reason := none
    checks := c
    checksPassed := checksPassedOf c targetCheck
    totalChecks := some 7
    aiDetected := aiDetectedOf c
    duration := some duration
    pointCount := some pointCount }

/-- Short-circuit result below 15 samples (detection.js:60-68): the
returned `checks` object is the initialization of detection.js:51-58, in
which `notRobotic` starts out `true`. -/
def insufficientDataResult : AnalysisResult :=
  { verified := false
    reason := some .insufficientData
    checks := ⟨false, false, false, false, false, true⟩
    checksPassed := 0
    totalChecks := none
    aiDetected := false
    duration := none
    pointCount := none }

/-- Model of `analyzeMovement(points, options)` (detection.js:47-650). -/
noncomputable def analyzeMovement (pts : List Sample) (options : AnalyzeOptions) : AnalysisResult :=
  if pts.length < 15 then insufficientDataResult
  else aggregateResult (computeChecks pts) (targetCheckOf options) (durationOf pts) pts.length

/-! ## Session registry and re-verification
(server, detection.js:1004-1148 and `src/unnamed/part_004`:191-232) -/

/-- One stored session. The stored `recordId` is the raw request value,
which may be absent. -/
structure SessionEntry where
  signature : List Nat
  timestamp : Int
  recordId : Option (List Nat)
  expiresAt : Int
deriving DecidableEq

/-- The `verifiedSessions` map, modelled as an association list with
`Map`-faithful lookup (first entry with the key). -/
abbrev SessionRegistry := List (List Nat × SessionEntry)

/-- `verifiedSessions.get(sessionId)`. -/
def findSession (reg : SessionRegistry) (sid : List Nat) : Option SessionEntry :=
  (reg.find? (fun e => e.1 == sid)).map Prod.snd

/-- `verifiedSessions.set(sessionId, entry)`; replaces any existing
entry with the key (extensionally the JS `Map.set`). -/
def setSession (reg : SessionRegistry) (sid : List Nat) (s : SessionEntry) : SessionRegistry :=
  (sid, s) :: reg.filter (fun e => !(e.1 == sid))

/-- `verifiedSessions.delete(sessionId)`. -/
def deleteSession (reg : SessionRegistry) (sid : List Nat) : SessionRegistry :=
  reg.filter (fun e => !(e.1 == sid))

/-- Lazy sweep of expired entries on issuance (detection.js:1056-1060). -/
def sweepSessions (reg : SessionRegistry) (now : Int) : SessionRegistry :=
  reg.filter (fun e => !(decide (e.2.expiresAt < now)))

/-- Session storage on a verified analysis (detection.js:1046-1060): the
session id is the first 16 hex characters of the signature, the entry
holds the signature, the signing timestamp, the raw request `recordId`
and an expiry one hour out, and expired entries are swept afterwards. -/
def issueSession (reg : SessionRegistry) (now : Int) (sig : List Nat) (ts : Int)
    (recordId : Option (List Nat)) : SessionRegistry :=
  sweepSessions (setSession reg (sig.take 16) ⟨sig, ts, recordId, now + 3600000⟩) now

/-- The `reason` strings of a failed re-verification. -/
inductive SessionFailReason where
  | sessionNotFound
  | sessionExpired
deriving DecidableEq

/-- JSON body of a re-verification response; absent fields are `none`. -/
structure VerifySigResponse where
  valid : Bool
  reason : Option SessionFailReason
  recordId : Option (List Nat)
  timestamp : Option Int
deriving DecidableEq

/-- Outcome of `POST /api/verify-signature`: either the 400 error for a
missing/empty field, or a JSON response. -/
inductive VerifySigOutcome where
  | badRequest
  | response (r : VerifySigResponse)
deriving DecidableEq

/-- Model of the `POST /api/verify-signature` handler
(detection.js:1095-1136): returns the updated registry and the outcome.
Empty byte strings model the falsy request fields that trigger the 400
branch. -/
def verifySignatureEndpoint (reg : SessionRegistry) (now : Int) (sessionId sig : List Nat) :
    SessionRegistry × VerifySigOutcome :=
  if sessionId = [] ∨ sig = [] then (reg, .badRequest)
  else
    match findSession reg sessionId with
    | none => (reg, .response ⟨false, some .sessionNotFound, none, none⟩)
    | some s =>
      if s.expiresAt < now then
        (deleteSession reg sessionId, .response ⟨false, some .sessionExpired, none, none⟩)
      else
        (reg, .response ⟨s.signature == sig, none,
          if s.signature == sig then s.recordId else none,
          if s.signature == sig then some s.timestamp else none⟩)

/-! ## Concrete inputs used by witnesses and counterexamples -/

/-- Empty options object (`analyzeMovement(points)` with defaults). -/
def defaultOptions : AnalyzeOptions := {}

/-- Options explicitly requesting zero required target hits. -/
def zeroReqOptions : AnalyzeOptions := ⟨some 0, some 3⟩

/-- A 14-sample input, below the 15-sample floor. -/
def c1Pts : List Sample := List.replicate 14 ⟨0, 0, 0⟩

/-- A 21-sample input: fourteen 10ms gaps followed by six 60ms gaps,
total span 500ms, no gap above 150ms. Its pause fraction over points is
6/21 < 0.3 while over steps it is 6/20 = 0.3. -/
def c7Pts : List Sample :=
  ([0, 10, 20, 30, 40, 50, 60, 70, 80, 90, 100, 110, 120, 130, 140,
    200, 260, 320, 380, 440, 500] : List ℚ).map (fun t => ⟨0, 0, t⟩)

/-- Twenty identical samples (zero movement, zero elapsed time). -/
def c9Pts : List Sample := List.replicate 20 ⟨100, 200, 5000⟩

/-- The zero-denominator freedom the specification demands of the
analysis: the division sites of detection.js:47-650 whose denominator
is not guarded by the source (`pointsPerSecond` at line 148,
`velocityPeaksPerSecond` at line 292, and the mean-gap denominator of
`timingCV` at line 253, which is reached only with positive variance)
all have a zero denominator exactly when the sample span is zero — the
first two divide by `duration / 1000` and the mean gap is the span
divided by the point count. -/
def analysisAvoidsZeroDenominators (pts : List Sample) : Prop := durationOf pts ≠ 0

/-- Secret key bytes used by concrete attestation witnesses. -/
def key0 : List Nat := [107, 101, 121]

/-- Concrete data record used by attestation witnesses. -/
def data0 : SignData := ⟨[⟨1, 2, 3⟩], [97], 7⟩

/-- Concrete signing time used by attestation witnesses. -/
def now0 : Int := 1700000000000

/-- Concrete one-entry session registry used by re-verification
witnesses. -/
def reg0 : SessionRegistry := [([1], ⟨[9, 9], 5, some [7], 100⟩)]

/-! ## General lemmas -/

/-- FIPS 180-4 test vector: the SHA-256 digest of the bytes of the
three-character message beginning the standard test suite. -/
theorem sha256_testVector :
    sha256 [97, 98, 99] =
      [186, 120, 22, 191, 143, 1, 207, 234, 65, 65, 64, 222, 93, 174, 34, 35, 176, 3, 97,
       163, 150, 23, 122, 156, 180, 16, 255, 97, 242, 0, 21, 173] := by
  decide

/-- RFC 4231 test case 2: HMAC-SHA-256 of a 28-byte message under a
4-byte key. -/
theorem hmacSha256_testVector :
    hmacSha256 [74, 101, 102, 101]
      [119, 104, 97, 116, 32, 100, 111, 32, 121, 97, 32, 119, 97, 110, 116, 32, 102, 111,
       114, 32, 110, 111, 116, 104, 105, 110, 103, 63] =
      [91, 220, 193, 70, 191, 96, 117, 78, 106, 4, 36, 38, 8, 149, 117, 199, 90, 0, 63, 8,
       157, 39, 57, 131, 157, 236, 88, 185, 100, 236, 56, 67] := by
  decide

/-- The digest of a final state is always 32 bytes. -/
theorem length_digestBytes (st : Sha256State) : (digestBytes st).length = 32 := by
  simp [digestBytes, wordBytes]

/-- SHA-256 always yields 32 digest bytes. -/
theorem length_sha256 (m : List Nat) : (sha256 m).length = 32 := length_digestBytes _

/-- Hex encoding doubles the length. -/
theorem length_toHex (l : List Nat) : (toHex l).length = 2 * l.length := by
  induction l with
  | nil => rfl
  | cons b t ih =>
    have h2 : (toHex t).length = 2 * t.length := ih
    simp only [toHex] at h2 ⊢
    rw [List.flatMap_cons, List.length_append, h2]
    simp [Nat.mul_succ]
    omega

/-- A hex HMAC-SHA-256 string is always 64 characters. -/
theorem length_hmacSha256Hex (key msg : List Nat) : (hmacSha256Hex key msg).length = 64 := by
  simp [hmacSha256Hex, length_toHex, hmacSha256, length_sha256]

/-- Setting an in-range index stores the new value. -/
theorem set_getD_self (l : List Nat) (i c : Nat) (h : i < l.length) :
    (l.set i c).getD i 0 = c := by
  simp [List.getD_eq_getElem?_getD, List.getElem?_set_self', h]

/-- Setting an in-range index to a different byte changes the list. -/
theorem set_ne_self (l : List Nat) (i c : Nat) (h : i < l.length) (hc : c ≠ l.getD i 0) :
    l.set i c ≠ l := by
  intro he
  have h1 := set_getD_self l i c h
  rw [he] at h1
  exact hc h1.symm

/-- Unfolding of the full analysis path at or above the 15-sample
floor. -/
theorem analyzeMovement_full (pts : List Sample) (o : AnalyzeOptions) (h : 15 ≤ pts.length) :
    analyzeMovement pts o =
      aggregateResult (computeChecks pts) (targetCheckOf o) (durationOf pts) pts.length := by
  have h' : ¬ pts.length < 15 := by omega
  simp [analyzeMovement, h']

/-- Unfolding of the short-circuit path below the 15-sample floor. -/
theorem analyzeMovement_short (pts : List Sample) (o : AnalyzeOptions) (h : pts.length < 15) :
    analyzeMovement pts o = insufficientDataResult := by
  simp [analyzeMovement, h]

/-- The aggregated result carries the check vector unchanged. -/
theorem aggregateResult_checks (c : Checks) (tg : Bool) (d : ℚ) (n : Nat) :
    (aggregateResult c tg d n).checks = c := rfl

/-- The pass count never exceeds 7, over all 128 combinations of the
seven check booleans. -/
theorem checksPassedOf_le (c : Checks) (tg : Bool) : checksPassedOf c tg ≤ 7 := by
  rcases c with ⟨s, cu, j, tm, co, nr⟩
  cases s <;> cases cu <;> cases j <;> cases tm <;> cases co <;> cases nr <;> cases tg <;> decide

/-- A passing verdict has pass count 7 and no automation flag. -/
theorem allPassedOf_seven (c : Checks) (tg : Bool) (h : allPassedOf c tg = true) :
    checksPassedOf c tg = 7 ∧ aiDetectedOf c = false := by
  rcases c with ⟨s, cu, j, tm, co, nr⟩
  revert h
  cases s <;> cases cu <;> cases j <;> cases tm <;> cases co <;> cases nr <;> cases tg <;> decide

/-- The automation flag holds exactly when at least two of the four
AI-sensitive checks are false. -/
theorem aiDetectedOf_iff (c : Checks) :
    aiDetectedOf c = true ↔ 2 ≤ [c.curves, c.continuous, c.notRobotic, c.timing].count false := by
  rcases c with ⟨s, cu, j, tm, co, nr⟩
  cases s <;> cases cu <;> cases j <;> cases tm <;> cases co <;> cases nr <;> decide

/-- The passing verdict holds exactly when all six primary checks and
the target check are true. -/
theorem allPassedOf_iff (c : Checks) (tg : Bool) :
    allPassedOf c tg = true ↔
      (c.speed = true ∧ c.curves = true ∧ c.jitter = true ∧ c.timing = true ∧
        c.continuous = true ∧ c.notRobotic = true ∧ tg = true) := by
  rcases c with ⟨s, cu, j, tm, co, nr⟩
  cases s <;> cases cu <;> cases j <;> cases tm <;> cases co <;> cases nr <;> cases tg <;> decide

/-- Aggregation invariant: the pass count is at most 7, and a verified
result has pass count 7 and no automation flag. -/
theorem aggregateResult_invariant (c : Checks) (tg : Bool) (d : ℚ) (n : Nat) :
    (aggregateResult c tg d n).checksPassed ≤ 7 ∧
      ((aggregateResult c tg d n).verified = false ∨
        ((aggregateResult c tg d n).checksPassed = 7 ∧
          (aggregateResult c tg d n).aiDetected = false)) := by
  refine ⟨checksPassedOf_le c tg, ?_⟩
  by_cases hv : allPassedOf c tg = true
  · exact Or.inr (allPassedOf_seven c tg hv)
  · exact Or.inl (Bool.eq_false_iff.mpr hv)

/-- Characterization of the two aggregated verdicts. -/
theorem aggregateResult_verdicts (c : Checks) (tg : Bool) (d : ℚ) (n : Nat) :
    ((aggregateResult c tg d n).aiDetected = true ↔
      2 ≤ [c.curves, c.continuous, c.notRobotic, c.timing].count false) ∧
    ((aggregateResult c tg d n).verified = true ↔
      (c.speed = true ∧ c.curves = true ∧ c.jitter = true ∧ c.timing = true ∧
        c.continuous = true ∧ c.notRobotic = true ∧ tg = true)) :=
  ⟨aiDetectedOf_iff c, allPassedOf_iff c tg⟩

/-- A verified aggregation requires the target check. -/
theorem allPassedOf_target (c : Checks) (tg : Bool) (h : allPassedOf c tg = true) : tg = true := by
  cases tg
  · simp [allPassedOf] at h
  · rfl

/-! ## Claims -/

/-- Claim C1, counterexample: at an explicit 14-sample input the claimed
short-circuit result shape is refuted — the returned `checks.notRobotic`
is `true`, not `false`, because detection.js:60-68 returns the `checks`
object initialized at detection.js:51-58, where `notRobotic` starts out
`true`. -/
theorem c1_counterexample :
    ¬ ((analyzeMovement c1Pts defaultOptions).verified = false ∧
       (analyzeMovement c1Pts defaultOptions).checksPassed = 0 ∧
       (analyzeMovement c1Pts defaultOptions).reason = some FailReason.insufficientData ∧
       (analyzeMovement c1Pts defaultOptions).checks.speed = false ∧
       (analyzeMovement c1Pts defaultOptions).checks.curves = false ∧
       (analyzeMovement c1Pts defaultOptions).checks.jitter = false ∧
       (analyzeMovement c1Pts defaultOptions).checks.timing = false ∧
       (analyzeMovement c1Pts defaultOptions).checks.continuous = false ∧
       (analyzeMovement c1Pts defaultOptions).checks.notRobotic = false) := by
  decide

/-- Claim C1, amended: below 15 samples the analysis short-circuits with
`verified = false`, `checksPassed = 0`, reason `insufficient_data`,
`aiDetected = false`, and the five checks `speed`, `curves`, `jitter`,
`timing`, `continuous` false while `notRobotic` is `true` (its
initialization value, returned unchanged). -/
theorem c1_theorem (pts : List Sample) (o : AnalyzeOptions) (h : pts.length < 15) :
    (analyzeMovement pts o).verified = false ∧
    (analyzeMovement pts o).checksPassed = 0 ∧
    (analyzeMovement pts o).reason = some FailReason.insufficientData ∧
    (analyzeMovement pts o).aiDetected = false ∧
    (analyzeMovement pts o).checks = ⟨false, false, false, false, false, true⟩ := by
  rw [analyzeMovement_short pts o h]
  exact ⟨rfl, rfl, rfl, rfl, rfl⟩

/-- Claim C1, witness of the amended statement at the 14-sample input. -/
theorem c1_witness :
    c1Pts.length < 15 ∧
    ((analyzeMovement c1Pts defaultOptions).verified = false ∧
     (analyzeMovement c1Pts defaultOptions).checksPassed = 0 ∧
     (analyzeMovement c1Pts defaultOptions).reason = some FailReason.insufficientData ∧
     (analyzeMovement c1Pts defaultOptions).aiDetected = false ∧
     (analyzeMovement c1Pts defaultOptions).checks = ⟨false, false, false, false, false, true⟩) :=
  ⟨by decide, c1_theorem c1Pts defaultOptions (by decide)⟩

/-- Claim C2: every analysis result has `checksPassed ≤ 7`, and a
verified result has `checksPassed = 7` and `aiDetected = false` (the
implication is stated disjunctively on the value of `verified`, so the
theorem is hypothesis-free). -/
theorem c2_theorem (pts : List Sample) (o : AnalyzeOptions) :
    (analyzeMovement pts o).checksPassed ≤ 7 ∧
    ((analyzeMovement pts o).verified = false ∨
      ((analyzeMovement pts o).checksPassed = 7 ∧ (analyzeMovement pts o).aiDetected = false)) := by
  by_cases h : pts.length < 15
  · rw [analyzeMovement_short pts o h]
    exact ⟨by decide, Or.inl rfl⟩
  · rw [analyzeMovement_full pts o (by omega)]
    exact aggregateResult_invariant _ _ _ _

/-- Claim C5: on the full analysis path, `aiDetected` holds exactly when
at least 2 of the four AI-sensitive checks are false, and `verified`
holds exactly when all six primary checks are true and the effective
required target-hit count is met. -/
theorem c5_theorem (pts : List Sample) (o : AnalyzeOptions) (h : 15 ≤ pts.length) :
    ((analyzeMovement pts o).aiDetected = true ↔
      2 ≤ [(analyzeMovement pts o).checks.curves, (analyzeMovement pts o).checks.continuous,
           (analyzeMovement pts o).checks.notRobotic,
           (analyzeMovement pts o).checks.timing].count false) ∧
    ((analyzeMovement pts o).verified = true ↔
      ((analyzeMovement pts o).checks.speed = true ∧
       (analyzeMovement pts o).checks.curves = true ∧
       (analyzeMovement pts o).checks.jitter = true ∧
       (analyzeMovement pts o).checks.timing = true ∧
       (analyzeMovement pts o).checks.continuous = true ∧
       (analyzeMovement pts o).checks.notRobotic = true ∧
       targetHitsRequiredOf o ≤ targetHitsOf o)) := by
  rw [analyzeMovement_full pts o h]
  simp only [aggregateResult_checks]
  have h2 := aggregateResult_verdicts (computeChecks pts) (targetCheckOf o) (durationOf pts)
    pts.length
  refine ⟨h2.1, ?_⟩
  rw [h2.2]
  simp [targetCheckOf]

/-- Claim C5, witness at the concrete 20-sample input. -/
theorem c5_witness :
    15 ≤ c9Pts.length ∧
    (((analyzeMovement c9Pts defaultOptions).aiDetected = true ↔
      2 ≤ [(analyzeMovement c9Pts defaultOptions).checks.curves,
           (analyzeMovement c9Pts defaultOptions).checks.continuous,
           (analyzeMovement c9Pts defaultOptions).checks.notRobotic,
           (analyzeMovement c9Pts defaultOptions).checks.timing].count false) ∧
    ((analyzeMovement c9Pts defaultOptions).verified = true ↔
      ((analyzeMovement c9Pts defaultOptions).checks.speed = true ∧
       (analyzeMovement c9Pts defaultOptions).checks.curves = true ∧
       (analyzeMovement c9Pts defaultOptions).checks.jitter = true ∧
       (analyzeMovement c9Pts defaultOptions).checks.timing = true ∧
       (analyzeMovement c9Pts defaultOptions).checks.continuous = true ∧
       (analyzeMovement c9Pts defaultOptions).checks.notRobotic = true ∧
       targetHitsRequiredOf defaultOptions ≤ targetHitsOf defaultOptions))) :=
  ⟨by decide, c5_theorem c9Pts defaultOptions (by decide)⟩

/-- Claim C6: on the full analysis path, `notRobotic` holds exactly when
fewer than half of the evaluated straightness windows are too straight,
fewer than 3 bezier signals fire, and the gap coefficient of variation
is at least 0.12 — where a positive variance over a zero mean gap is
the IEEE `Infinity` of detection.js:253, which counts as at least 0.12
and appears as the first disjunct; in every other case the coefficient
is the finite `timingCVOf` value. The signal suite has exactly 18
members. -/
theorem c6_theorem (pts : List Sample) (o : AnalyzeOptions) (h : 15 ≤ pts.length) :
    ((analyzeMovement pts o).checks.notRobotic = true ↔
      (straightRatioOf pts < 1 / 2 ∧ bezierSignalCountOf pts < 3 ∧
        ((0 < timingVarianceOf pts ∧ timingMeanOf pts = 0) ∨
          (12 / 100 : ℝ) ≤ timingCVOf pts))) ∧
    (bezierSignalsOf pts).length = 18 := by
  constructor
  · rw [analyzeMovement_full pts o h]
    simp only [aggregateResult_checks]
    show notRoboticCheckOf pts = true ↔ _
    by_cases hc : 0 < timingVarianceOf pts ∧ timingMeanOf pts = 0
    · simp [notRoboticCheckOf, isBezierLikeOf, isTimingTooRegularOf, hc, Bool.and_eq_true,
        Bool.not_eq_true', not_le, not_lt]
    · simp [notRoboticCheckOf, isBezierLikeOf, isTimingTooRegularOf, hc, Bool.and_eq_true,
        Bool.not_eq_true', not_le, not_lt]
  · rfl

/-- Claim C6, witness at the concrete 20-sample input. -/
theorem c6_witness :
    15 ≤ c9Pts.length ∧
    (((analyzeMovement c9Pts defaultOptions).checks.notRobotic = true ↔
      (straightRatioOf c9Pts < 1 / 2 ∧ bezierSignalCountOf c9Pts < 3 ∧
        ((0 < timingVarianceOf c9Pts ∧ timingMeanOf c9Pts = 0) ∨
          (12 / 100 : ℝ) ≤ timingCVOf c9Pts))) ∧
    (bezierSignalsOf c9Pts).length = 18) :=
  ⟨by decide, c6_theorem c9Pts defaultOptions (by decide)⟩

/-- Claim C7, counterexample: at an explicit 21-sample input the timing
check passes although the fraction of steps (consecutive-sample pairs)
with a gap above 50ms is exactly 0.3, not below it — the source divides
the pause count by `points.length`, not by the step count. -/
theorem c7_counterexample :
    (analyzeMovement c7Pts defaultOptions).checks.timing = true ∧
    ¬ ((pauseCountOf c7Pts : ℚ) / ((timeGaps c7Pts).length : ℚ) < 3 / 10) := by
  have hg : timeGaps c7Pts =
      [10, 10, 10, 10, 10, 10, 10, 10, 10, 10, 10, 10, 10, 10, 60, 60, 60, 60, 60, 60] := by
    norm_num [timeGaps, stepPairs, c7Pts, List.zip_cons_cons]
  have hdur : durationOf c7Pts = 500 := by
    show (500 : ℚ) - 0 = 500
    norm_num
  have hlen : c7Pts.length = 21 := by decide
  constructor
  · rw [analyzeMovement_full c7Pts defaultOptions (by decide)]
    simp only [aggregateResult_checks]
    show timingCheckOf c7Pts = true
    norm_num [timingCheckOf, hdur, hg, hlen, pauseCountOf, longPauseCountOf, List.countP_cons]
  · norm_num [pauseCountOf, hg, List.countP_cons]

/-- Claim C7, amended: on the full analysis path the timing check holds
exactly when the span exceeds 300ms, the count of gaps above 50ms is
below 0.3 of `points.length` (not of the step count), and the count of
gaps above 150ms is below 0.1 of `points.length`. -/
theorem c7_theorem (pts : List Sample) (o : AnalyzeOptions) (h : 15 ≤ pts.length) :
    (analyzeMovement pts o).checks.timing = true ↔
      (300 < durationOf pts ∧
       (pauseCountOf pts : ℚ) / (pts.length : ℚ) < 3 / 10 ∧
       (longPauseCountOf pts : ℚ) < (pts.length : ℚ) * (1 / 10)) := by
  rw [analyzeMovement_full pts o h]
  simp only [aggregateResult_checks]
  show timingCheckOf pts = true ↔ _
  simp [timingCheckOf, Bool.and_eq_true]

/-- Claim C7, witness of the amended statement at the 21-sample input. -/
theorem c7_witness :
    15 ≤ c7Pts.length ∧
    ((analyzeMovement c7Pts defaultOptions).checks.timing = true ↔
      (300 < durationOf c7Pts ∧
       (pauseCountOf c7Pts : ℚ) / (c7Pts.length : ℚ) < 3 / 10 ∧
       (longPauseCountOf c7Pts : ℚ) < (c7Pts.length : ℚ) * (1 / 10))) :=
  ⟨by decide, c7_theorem c7Pts defaultOptions (by decide)⟩

/-- Claim C9, counterexample: at the 20-identical-sample input the
analysis does return `verified = false`, but it is not free of
zero-denominator divisions — the span is zero, so the unguarded
`pointsPerSecond` and `velocityPeaksPerSecond` divisions divide by
zero (JS evaluates them to `Infinity`/`NaN` rather than raising). -/
theorem c9_counterexample :
    ¬ ((analyzeMovement c9Pts defaultOptions).verified = false ∧
       analysisAvoidsZeroDenominators c9Pts) := by
  intro hcl
  apply hcl.2
  show (5000 : ℚ) - 5000 = 0
  norm_num

/-- Claim C9, amended: for any sample value, 20 identical copies of it
are analyzed to completion on the full path (the result is the
aggregated record, with no `reason`), with `verified = false`; the
sample span is zero, so the two unguarded duration divisions have a zero
denominator, which the source tolerates as IEEE `Infinity`/`NaN` without
raising. -/
theorem c9_theorem (p : Sample) (o : AnalyzeOptions) :
    (analyzeMovement (List.replicate 20 p) o).verified = false ∧
    (analyzeMovement (List.replicate 20 p) o).reason = none ∧
    durationOf (List.replicate 20 p) = 0 := by
  have hdur : durationOf (List.replicate 20 p) = 0 := by
    show p.t - p.t = 0
    exact sub_self p.t
  have hlen : 15 ≤ (List.replicate 20 p).length := by simp
  have ht : timingCheckOf (List.replicate 20 p) = false := by
    have h300 : ¬ ((300 : ℚ) < 0) := by norm_num
    simp only [timingCheckOf, hdur, decide_eq_false h300, Bool.false_and]
  rw [analyzeMovement_full _ o hlen]
  refine ⟨?_, rfl, hdur⟩
  show allPassedOf (computeChecks (List.replicate 20 p)) (targetCheckOf o) = false
  simp only [allPassedOf, checkValuesOf, computeChecks, ht, List.all_cons, List.all_nil,
    id_eq, Bool.false_and, Bool.and_false, Bool.and_true]

/-- Claim C10: options that explicitly request zero (or omit) required
target hits silently fall back to the default of 5: the target check
then passes exactly when at least 5 hits were counted, and a verified
analysis requires the target check. -/
theorem c10_theorem (o : AnalyzeOptions)
    (h : o.targetHitsRequired = some 0 ∨ o.targetHitsRequired = none) :
    targetHitsRequiredOf o = 5 ∧
    (targetCheckOf o = true ↔ 5 ≤ targetHitsOf o) ∧
    (∀ pts : List Sample, (analyzeMovement pts o).verified = false ∨ targetCheckOf o = true) := by
  have h5 : targetHitsRequiredOf o = 5 := by
    rcases h with h | h <;> simp [targetHitsRequiredOf, jsOrDefault, h]
  refine ⟨h5, by simp [targetCheckOf, h5], ?_⟩
  intro pts
  by_cases hlen : pts.length < 15
  · left
    rw [analyzeMovement_short pts o hlen]
    rfl
  · cases htg : targetCheckOf o
    · left
      rw [analyzeMovement_full pts o (by omega)]
      show allPassedOf (computeChecks pts) (targetCheckOf o) = false
      rw [htg]
      simp [allPassedOf]
    · right
      rfl

/-- Claim C10, witness at options requesting zero required hits with 3
counted hits. -/
theorem c10_witness :
    targetHitsRequiredOf zeroReqOptions = 5 ∧
    (targetCheckOf zeroReqOptions = true ↔ 5 ≤ targetHitsOf zeroReqOptions) ∧
    (∀ pts : List Sample,
      (analyzeMovement pts zeroReqOptions).verified = false ∨
        targetCheckOf zeroReqOptions = true) :=
  c10_theorem zeroReqOptions (Or.inl rfl)

/-- Claim C3: evaluated at an explicit key, empty signature and payload,
`verifySignature` raises the `RangeError` of `crypto.timingSafeEqual`
(the recomputed hex MAC has 64 characters, the supplied signature 0),
instead of failing closed with `false` as the specification requires. -/
theorem c3_theorem :
    verifySignature [107] [] [112] = Except.error NodeError.rangeError := by
  rfl

/-- Claim C4: the attestation round trip. For every key, signing time
and data record: (1) verifying the issued signature against the issued
payload succeeds; (2) changing any byte of the signature makes
verification return `false`; (3) verification of any payload returns
exactly the comparison of the issued signature with that payload's
recomputed hex MAC; (4) hence changing any byte of the payload makes
verification return `false` unless the keyed MAC of the altered payload
collides with the original one (the cryptographic collision-resistance
of HMAC-SHA-256, which no functional embedding can decide, is exactly
the gap between (4) and the claim's unconditional wording). -/
theorem c4_theorem (key : List Nat) (now : Int) (data : SignData) :
    (verifySignature key (generateSignature key now data).signature
        (generateSignature key now data).payload = Except.ok true) ∧
    (∀ i c : Nat, i < (generateSignature key now data).signature.length →
      c ≠ (generateSignature key now data).signature.getD i 0 →
      verifySignature key ((generateSignature key now data).signature.set i c)
        (generateSignature key now data).payload = Except.ok false) ∧
    (∀ payload2 : List Nat,
      verifySignature key (generateSignature key now data).signature payload2 =
        Except.ok ((generateSignature key now data).signature == hmacSha256Hex key payload2)) ∧
    (∀ i c : Nat, i < (generateSignature key now data).payload.length →
      c ≠ (generateSignature key now data).payload.getD i 0 →
      (verifySignature key (generateSignature key now data).signature
          ((generateSignature key now data).payload.set i c) = Except.ok false ∨
        hmacSha256Hex key ((generateSignature key now data).payload.set i c) =
          hmacSha256Hex key (generateSignature key now data).payload)) := by
  have hsig : (generateSignature key now data).signature =
      hmacSha256Hex key (signPayload data now) := rfl
  have hpay : (generateSignature key now data).payload = signPayload data now := rfl
  have hchar : ∀ payload2 : List Nat,
      verifySignature key (generateSignature key now data).signature payload2 =
        Except.ok ((generateSignature key now data).signature == hmacSha256Hex key payload2) := by
    intro payload2
    have hl : (generateSignature key now data).signature.length =
        (hmacSha256Hex key payload2).length := by
      simp [hsig, length_hmacSha256Hex]
    simp [verifySignature, timingSafeEqual, hl]
  refine ⟨?_, ?_, hchar, ?_⟩
  · rw [hchar]
    have hself : ((generateSignature key now data).signature ==
        hmacSha256Hex key (generateSignature key now data).payload) = true := by
      rw [hpay, ← hsig]
      exact beq_self_eq_true _
    rw [hself]
  · intro i c hi hc
    have hl : ((generateSignature key now data).signature.set i c).length =
        (hmacSha256Hex key (generateSignature key now data).payload).length := by
      simp [List.length_set, hsig, hpay, length_hmacSha256Hex]
    have hne : (generateSignature key now data).signature.set i c ≠
        hmacSha256Hex key (generateSignature key now data).payload := by
      rw [hpay, ← hsig]
      exact set_ne_self _ i c hi hc
    simp [verifySignature, timingSafeEqual, hl, beq_eq_false_iff_ne.mpr hne]
  · intro i c hi hc
    by_cases heq : hmacSha256Hex key ((generateSignature key now data).payload.set i c) =
        hmacSha256Hex key (generateSignature key now data).payload
    · exact Or.inr heq
    · left
      rw [hchar]
      have hne : (generateSignature key now data).signature ≠
          hmacSha256Hex key ((generateSignature key now data).payload.set i c) := by
        intro hx
        apply heq
        rw [← hx, hsig, hpay]
      rw [beq_eq_false_iff_ne.mpr hne]

/-- Claim C4, witness at a concrete key, time and record: the round trip
succeeds, flipping the first signature byte to 0 fails verification, and
flipping the first payload byte to 0 fails verification or exhibits a
MAC collision. -/
theorem c4_witness :
    (verifySignature key0 (generateSignature key0 now0 data0).signature
        (generateSignature key0 now0 data0).payload = Except.ok true) ∧
    (0 < (generateSignature key0 now0 data0).signature.length ∧
      (0 : Nat) ≠ (generateSignature key0 now0 data0).signature.getD 0 0 ∧
      verifySignature key0 ((generateSignature key0 now0 data0).signature.set 0 0)
        (generateSignature key0 now0 data0).payload = Except.ok false) ∧
    (0 < (generateSignature key0 now0 data0).payload.length ∧
      (0 : Nat) ≠ (generateSignature key0 now0 data0).payload.getD 0 0 ∧
      (verifySignature key0 (generateSignature key0 now0 data0).signature
          ((generateSignature key0 now0 data0).payload.set 0 0) = Except.ok false ∨
        hmacSha256Hex key0 ((generateSignature key0 now0 data0).payload.set 0 0) =
          hmacSha256Hex key0 (generateSignature key0 now0 data0).payload)) :=
  ⟨(c4_theorem key0 now0 data0).1,
   ⟨by decide, by decide, (c4_theorem key0 now0 data0).2.1 0 0 (by decide) (by decide)⟩,
   ⟨by decide, by decide, (c4_theorem key0 now0 data0).2.2.2 0 0 (by decide) (by decide)⟩⟩

/-- An issued session is immediately findable under the 16-character
prefix of its signature. -/
theorem findSession_issue (reg : SessionRegistry) (now : Int) (sig : List Nat) (ts : Int)
    (rid : Option (List Nat)) :
    findSession (issueSession reg now sig ts rid) (sig.take 16) =
      some ⟨sig, ts, rid, now + 3600000⟩ := by
  have hexp : ¬ (now + 3600000 < now) := by omega
  simp [issueSession, sweepSessions, setSession, findSession, List.filter_cons, hexp,
    List.find?_cons_of_pos]

/-- Claim C8: the re-verification endpoint returns `session_not_found`
for an absent id, `session_expired` (and evicts the entry) for a stored
expiry in the past, and otherwise compares the stored signature with the
supplied one, returning the stored record id and timestamp exactly on a
match; and a lookup immediately after issuance with the issued session
id and signature is valid with the original record id. -/
theorem c8_theorem :
    (∀ (reg : SessionRegistry) (now : Int) (sid sig : List Nat), sid ≠ [] → sig ≠ [] →
      findSession reg sid = none →
      verifySignatureEndpoint reg now sid sig =
        (reg, .response ⟨false, some .sessionNotFound, none, none⟩)) ∧
    (∀ (reg : SessionRegistry) (now : Int) (sid sig : List Nat) (s : SessionEntry),
      sid ≠ [] → sig ≠ [] → findSession reg sid = some s → s.expiresAt < now →
      verifySignatureEndpoint reg now sid sig =
        (deleteSession reg sid, .response ⟨false, some .sessionExpired, none, none⟩)) ∧
    (∀ (reg : SessionRegistry) (now : Int) (sid sig : List Nat) (s : SessionEntry),
      sid ≠ [] → sig ≠ [] → findSession reg sid = some s → ¬ s.expiresAt < now →
      verifySignatureEndpoint reg now sid sig =
        (reg, .response ⟨s.signature == sig, none,
          if s.signature == sig then s.recordId else none,
          if s.signature == sig then some s.timestamp else none⟩)) ∧
    (∀ (reg : SessionRegistry) (now : Int) (key : List Nat) (ts : Int) (data : SignData)
      (rid : Option (List Nat)),
      verifySignatureEndpoint (issueSession reg now (generateSignature key ts data).signature ts rid)
          now ((generateSignature key ts data).signature.take 16)
          (generateSignature key ts data).signature =
        (issueSession reg now (generateSignature key ts data).signature ts rid,
         .response ⟨true, none, rid, some ts⟩)) := by
  refine ⟨?_, ?_, ?_, ?_⟩
  · intro reg now sid sig h1 h2 hf
    simp [verifySignatureEndpoint, h1, h2, hf]
  · intro reg now sid sig s h1 h2 hf hexp
    simp [verifySignatureEndpoint, h1, h2, hf, hexp]
  · intro reg now sid sig s h1 h2 hf hexp
    simp [verifySignatureEndpoint, h1, h2, hf, hexp]
  · intro reg now key ts data rid
    have hlen : (generateSignature key ts data).signature.length = 64 :=
      length_hmacSha256Hex key (signPayload data ts)
    have hsig_ne : (generateSignature key ts data).signature ≠ [] := by
      intro hx
      rw [hx] at hlen
      simp at hlen
    have hsid_ne : (generateSignature key ts data).signature.take 16 ≠ [] := by
      intro hx
      have hx2 := congrArg List.length hx
      rw [List.length_take, hlen] at hx2
      simp at hx2
    have hfind := findSession_issue reg now (generateSignature key ts data).signature ts rid
    have hexp : ¬ ((⟨(generateSignature key ts data).signature, ts, rid,
        now + 3600000⟩ : SessionEntry).expiresAt < now) := by
      show ¬ (now + 3600000 < now)
      omega
    simp [verifySignatureEndpoint, hsid_ne, hsig_ne, hfind, hexp]

/-- Claim C8, witness: the three lookup outcomes at a concrete one-entry
registry — an unknown id is not found, the entry is expired and evicted
when the clock passes 100, and before expiry the matching signature
returns the stored record id and timestamp. -/
theorem c8_witness :
    (verifySignatureEndpoint reg0 50 [2] [9] =
      (reg0, .response ⟨false, some .sessionNotFound, none, none⟩)) ∧
    (verifySignatureEndpoint reg0 200 [1] [9, 9] =
      (deleteSession reg0 [1], .response ⟨false, some .sessionExpired, none, none⟩)) ∧
    (verifySignatureEndpoint reg0 50 [1] [9, 9] =
      (reg0, .response ⟨true, none, some [7], some 5⟩)) :=
  ⟨c8_theorem.1 reg0 50 [2] [9] (by decide) (by decide) (by decide),
   c8_theorem.2.1 reg0 200 [1] [9, 9] ⟨[9, 9], 5, some [7], 100⟩ (by decide) (by decide)
     (by decide) (by decide),
   c8_theorem.2.2.1 reg0 50 [1] [9, 9] ⟨[9, 9], 5, some [7], 100⟩ (by decide) (by decide)
     (by decide) (by decide)⟩

end MouseCheck
